import Mathlib

/-!
Shallow embedding of the insider-selling signal detector from
`src/backend/analyzer.py` (class `SECFilingAnalyzer`), together with
theorems settling the specification claims about it.

Python floats are modelled as exact rationals (`ℚ`), Python ints as `Nat`,
ISO transaction-date strings as integer day numbers (the source only ever
subtracts two parsed dates and takes `.days`).  The `ZeroDivisionError`
that Python raises in `_calculate_confidence` when `threshold == 0` is
modelled with `Except String`.
-/

/-- `InsiderTransaction` dataclass of the source. -/
structure InsiderTransaction where
  insider_name : String
  title : String
  transaction_date : Int
  shares_sold : Nat
  shares_bought : Nat
  shares_owned_after : Nat
  transaction_type : String
deriving DecidableEq

/-- The `details` dict assembled in `detect_insider_selling_signal`. -/
structure SignalDetails where
  total_shares_sold : Nat
  total_shares_bought : Nat
  percentage_sold : ℚ
  effective_percentage : ℚ
  threshold : ℚ
  num_transactions : Nat
  num_unique_insiders : Nat
  insiders : List String
  roles : List String
  role_multiplier : ℚ
  time_clustered : Option Bool
  date_range_days : Int
deriving DecidableEq

/-- `InsiderSignal` dataclass of the source (minus the wall-clock
`detected_at` timestamp, which carries no verifiable content). -/
structure InsiderSignal where
  signal_type : String
  company_symbol : String
  filing_type : String
  confidence : ℚ
  threshold_exceeded : Bool
  threshold_value : ℚ
  details : SignalDetails
  filing_url : String
deriving DecidableEq

/-- ASCII lower-casing of one character (Python `str.lower` restricted to
the ASCII range, which is all the role-weight keys use). -/
def lowerChar (c : Char) : Char :=
  if 'A' ≤ c ∧ c ≤ 'Z' then Char.ofNat (c.toNat + 32) else c

/-- `title.lower()` as a character list. -/
def lowerStr (s : String) : List Char :=
  s.data.map lowerChar

/-- Python substring containment `needle in hay`. -/
def containsSub (hay needle : List Char) : Bool :=
  hay.tails.any fun t => needle.isPrefixOf t

/-- The `ROLE_WEIGHTS` dict of `detect_insider_selling_signal`, in source
(insertion) order. -/
def ROLE_WEIGHTS : List (String × ℚ) :=
  [("ceo", 1.5), ("chief executive officer", 1.5),
   ("cfo", 1.4), ("chief financial officer", 1.4),
   ("coo", 1.3), ("chief operating officer", 1.3), ("president", 1.3),
   ("cto", 1.2), ("chief technology officer", 1.2),
   ("director", 1.0), ("officer", 0.9), ("insider", 0.8),
   ("10% owner", 0.7)]

/-- One step of the weight-resolution loop of the source:
`if role in title_lower: weight = max(weight, w)`. -/
def stepMax (tl : List Char) (acc : ℚ) (kw : String × ℚ) : ℚ :=
  if containsSub tl kw.1.data then max acc kw.2 else acc

/-- The per-record role weight: `weight` starts at `1.0` and the loop takes
`max(weight, w)` over every key `role` with `role in title_lower`. -/
def roleWeightFor (title : String) : ℚ :=
  ROLE_WEIGHTS.foldl (stepMax (lowerStr title)) 1

/-- `total_sold` accumulator. -/
def totalSold (ts : List InsiderTransaction) : Nat :=
  ts.foldl (fun a t => a + t.shares_sold) 0

/-- `total_bought` accumulator. -/
def totalBought (ts : List InsiderTransaction) : Nat :=
  ts.foldl (fun a t => a + t.shares_bought) 0

/-- `weighted_sold` accumulator (computed by the source, never used by the
firing decision or the confidence score). -/
def weightedSold (ts : List InsiderTransaction) : ℚ :=
  ts.foldl (fun a t => a + (t.shares_sold : ℚ) * roleWeightFor t.title) 0

/-- `role_multiplier = max(role_multiplier, weight)` with initial `1.0`. -/
def roleMultiplier (ts : List InsiderTransaction) : ℚ :=
  ts.foldl (fun a t => max a (roleWeightFor t.title)) 1

/-- `recent_ownership = transactions[-1].shares_owned_after`
(only consulted on non-empty input). -/
def recentOwnership (ts : List InsiderTransaction) : Nat :=
  (ts.getLast?).elim 0 (fun t => t.shares_owned_after)

/-- `percentage_sold`: unweighted ratio, `0` when the most recent ownership
is `0`. -/
def percentageSold (ts : List InsiderTransaction) : ℚ :=
  if 0 < recentOwnership ts then
    (totalSold ts : ℚ) / ((recentOwnership ts : ℚ) + (totalSold ts : ℚ)) * 100
  else 0

/-- `effective_percentage = percentage_sold * role_multiplier`. -/
def effectivePercentage (ts : List InsiderTransaction) : ℚ :=
  percentageSold ts * roleMultiplier ts

/-- `len(set(t.insider_name for t in transactions))`. -/
def numUniqueInsiders (ts : List InsiderTransaction) : Nat :=
  ((ts.map (fun t => t.insider_name)).dedup).length

/-- `(max(dates) - min(dates)).days` over the parsed transaction dates
(`0` on lists of fewer than two records, where the source never reads it). -/
def dateSpanDays (ts : List InsiderTransaction) : Int :=
  match ts.map (fun t => t.transaction_date) with
  | [] => 0
  | d :: ds => ds.foldl max d - ds.foldl min d

/-- `is_clustered`: `date_range_days <= 30` when more than one record
exists, else `False`. -/
def isTimeClustered (ts : List InsiderTransaction) : Bool :=
  if 1 < ts.length then decide (dateSpanDays ts ≤ 30) else false

/-- Python `round(x, 2)` idealized on exact rationals (round half to even). -/
def roundHalfEven (x : ℚ) : Int :=
  let f := Rat.floor x
  let r := x - f
  if r < 1/2 then f
  else if 1/2 < r then f + 1
  else if f % 2 = 0 then f else f + 1

/-- Round to two decimal places, as the source does for `details` fields. -/
def round2 (x : ℚ) : ℚ :=
  (roundHalfEven (x * 100) : ℚ) / 100

/-- `threshold_factor = min((percentage_sold / threshold) - 1.0, 1.0)`. -/
def thresholdFactor (percentage_sold threshold : ℚ) : ℚ :=
  min (percentage_sold / threshold - 1) 1

/-- `insider_factor = min(num_insiders / 3.0, 1.0)`. -/
def insiderFactor (num_insiders : Nat) : ℚ :=
  min ((num_insiders : ℚ) / 3) 1

/-- `cluster_factor = 1.0 if is_clustered else 0.5`. -/
def clusterFactor (is_clustered : Bool) : ℚ :=
  if is_clustered then 1 else 0.5

/-- `role_factor = min((role_multiplier - 0.7) / 0.8, 1.0)`. -/
def roleFactor (role_multiplier : ℚ) : ℚ :=
  min ((role_multiplier - 0.7) / 0.8) 1

/-- `_calculate_confidence`.  In Python, `percentage_sold / threshold`
raises `ZeroDivisionError` when `threshold == 0`; that exceptional exit is
the `Except.error` branch.  Otherwise the four weighted factors are summed
and capped at `0.99`. -/
def calculateConfidence (percentage_sold threshold : ℚ) (num_insiders : Nat)
    (is_clustered : Bool) (role_multiplier : ℚ) : Except String ℚ :=
  if threshold = 0 then Except.error ("ZeroDivisionError")
  else Except.ok (min
    (thresholdFactor percentage_sold threshold * 0.40
      + insiderFactor num_insiders * 0.30
      + clusterFactor is_clustered * 0.15
      + roleFactor role_multiplier * 0.15) 0.99)

/-- The uncapped weighted factor sum, at the arguments the detector passes
to `_calculate_confidence`. -/
def rawConfidence (ts : List InsiderTransaction) (threshold : ℚ) : ℚ :=
  thresholdFactor (percentageSold ts) threshold * 0.40
    + insiderFactor (numUniqueInsiders ts) * 0.30
    + clusterFactor (isTimeClustered ts) * 0.15
    + roleFactor (roleMultiplier ts) * 0.15

/-- The `InsiderSignal` literal built in the fired branch of
`detect_insider_selling_signal`. -/
def buildSignal (ts : List InsiderTransaction) (threshold confidence : ℚ) :
    InsiderSignal where
  signal_type := "INSIDER_SELLING"
  company_symbol := ""
  filing_type := "Form 4"
  confidence := confidence
  threshold_exceeded := true
  threshold_value := percentageSold ts
  details :=
    { total_shares_sold := totalSold ts
      total_shares_bought := totalBought ts
      percentage_sold := round2 (percentageSold ts)
      effective_percentage := round2 (effectivePercentage ts)
      threshold := threshold
      num_transactions := ts.length
      num_unique_insiders := numUniqueInsiders ts
      insiders := (ts.map (fun t => t.insider_name)).dedup
      roles := (ts.map (fun t => t.title)).dedup
      role_multiplier := round2 (roleMultiplier ts)
      time_clustered := if 1 < ts.length then some (isTimeClustered ts) else none
      date_range_days := if 1 < ts.length then dateSpanDays ts else 0 }
  filing_url := ""

/-- `detect_insider_selling_signal(transactions, threshold)`:
empty input returns `None`; otherwise the signal fires iff
`effective_percentage >= threshold`, in which case the confidence is
computed (possibly raising on `threshold == 0`) and the record assembled. -/
def detect_insider_selling_signal (transactions : List InsiderTransaction)
    (threshold : ℚ) : Except String (Option InsiderSignal) :=
  if transactions.isEmpty then Except.ok none
  else if threshold ≤ effectivePercentage transactions then
    match calculateConfidence (percentageSold transactions) threshold
        (numUniqueInsiders transactions) (isTimeClustered transactions)
        (roleMultiplier transactions) with
    | Except.error e => Except.error e
    | Except.ok c =>
        Except.ok (some (buildSignal transactions threshold c))
  else Except.ok none

/-- Extract the confidence of a fired detection result. -/
def confidenceOf (r : Except String (Option InsiderSignal)) : Option ℚ :=
  match r with
  | Except.ok (some s) => some s.confidence
  | _ => none

/-- Extract the `threshold_value` of a fired detection result. -/
def thresholdValueOf (r : Except String (Option InsiderSignal)) : Option ℚ :=
  match r with
  | Except.ok (some s) => some s.threshold_value
  | _ => none

/-- Extract the `time_clustered` details entry of a fired detection result. -/
def timeClusteredOf (r : Except String (Option InsiderSignal)) :
    Option (Option Bool) :=
  match r with
  | Except.ok (some s) => some s.details.time_clustered
  | _ => none

/-- The weights the resolution loop actually matches for a title, in table
order. -/
def matchingWeights (title : String) : List ℚ :=
  (ROLE_WEIGHTS.filter (fun kw => containsSub (lowerStr title) kw.1.data)).map
    (fun kw => kw.2)

/-- Modelled from the spec claim wording (claim C1): the resolved weight is
the maximum table weight over all case-insensitively matching substring
keys, defaulting to `1.0` only when no key matches. -/
def claimedRoleWeight (title : String) : ℚ :=
  match matchingWeights title with
  | [] => 1
  | w :: ws => ws.foldl max w

/-! ### General lemmas about the weight-resolution fold -/

lemma le_foldl_stepMax (tl : List Char) (l : List (String × ℚ)) :
    ∀ a : ℚ, a ≤ l.foldl (stepMax tl) a := by
  induction l with
  | nil => intro a; exact le_refl a
  | cons kw l ih =>
    intro a
    rw [List.foldl_cons]
    refine le_trans ?_ (ih (stepMax tl a kw))
    unfold stepMax
    split
    · exact le_max_left a kw.2
    · exact le_refl a

lemma foldl_stepMax_le (tl : List Char) (l : List (String × ℚ)) :
    ∀ a c : ℚ, a ≤ c → (∀ kw ∈ l, kw.2 ≤ c) → l.foldl (stepMax tl) a ≤ c := by
  induction l with
  | nil => intro a c ha _; exact ha
  | cons kw l ih =>
    intro a c ha hl
    rw [List.foldl_cons]
    refine ih _ _ ?_ (fun x hx => hl x (List.mem_cons_of_mem _ hx))
    unfold stepMax
    split
    · exact max_le ha (hl kw (List.mem_cons_self _ _))
    · exact ha

lemma one_le_roleWeightFor (title : String) : 1 ≤ roleWeightFor title :=
  le_foldl_stepMax (lowerStr title) ROLE_WEIGHTS 1

lemma roleWeightFor_le (title : String) : roleWeightFor title ≤ 1.5 := by
  refine foldl_stepMax_le (lowerStr title) ROLE_WEIGHTS 1 1.5 (by norm_num) ?_
  intro kw hkw
  simp only [ROLE_WEIGHTS] at hkw
  fin_cases hkw <;> norm_num

lemma le_foldl_roleMax (l : List InsiderTransaction) :
    ∀ a : ℚ, a ≤ l.foldl (fun a t => max a (roleWeightFor t.title)) a := by
  induction l with
  | nil => intro a; exact le_refl a
  | cons t l ih =>
    intro a
    rw [List.foldl_cons]
    exact le_trans (le_max_left a (roleWeightFor t.title)) (ih _)

lemma foldl_roleMax_le (l : List InsiderTransaction) :
    ∀ a c : ℚ, a ≤ c → (∀ t ∈ l, roleWeightFor t.title ≤ c) →
      l.foldl (fun a t => max a (roleWeightFor t.title)) a ≤ c := by
  induction l with
  | nil => intro a c ha _; exact ha
  | cons t l ih =>
    intro a c ha hl
    rw [List.foldl_cons]
    refine ih _ _ ?_ (fun x hx => hl x (List.mem_cons_of_mem _ hx))
    exact max_le ha (hl t (List.mem_cons_self _ _))

lemma one_le_roleMultiplier (ts : List InsiderTransaction) :
    1 ≤ roleMultiplier ts :=
  le_foldl_roleMax ts 1

lemma roleMultiplier_le (ts : List InsiderTransaction) :
    roleMultiplier ts ≤ 1.5 :=
  foldl_roleMax_le ts 1 1.5 (by norm_num) (fun t _ => roleWeightFor_le t.title)

lemma percentageSold_nonneg (ts : List InsiderTransaction) :
    0 ≤ percentageSold ts := by
  unfold percentageSold
  split
  · exact mul_nonneg
      (div_nonneg (Nat.cast_nonneg _)
        (add_nonneg (Nat.cast_nonneg _) (Nat.cast_nonneg _)))
      (by norm_num)
  · exact le_refl 0

lemma numUniqueInsiders_pos (ts : List InsiderTransaction) (h : ts ≠ []) :
    1 ≤ numUniqueInsiders ts := by
  unfold numUniqueInsiders
  have hm : ts.map (fun t => t.insider_name) ≠ [] := by
    cases ts with
    | nil => exact absurd rfl h
    | cons t ts => simp
  have hd : (ts.map (fun t => t.insider_name)).dedup ≠ [] := by
    rwa [ne_eq, List.dedup_eq_nil]
  exact List.length_pos.mpr hd

/-! ### The filter-map description of the weight fold (for claim C1) -/

lemma foldl_max_shift (l : List ℚ) :
    ∀ x y : ℚ, l.foldl max (max x y) = max x (l.foldl max y) := by
  induction l with
  | nil => intro x y; rfl
  | cons a l ih =>
    intro x y
    rw [List.foldl_cons, List.foldl_cons, max_assoc, ih]

lemma foldl_stepMax_eq (tl : List Char) (l : List (String × ℚ)) :
    ∀ a : ℚ, l.foldl (stepMax tl) a =
      match (l.filter (fun kw => containsSub tl kw.1.data)).map
          (fun kw => kw.2) with
      | [] => a
      | w :: ws => max a (ws.foldl max w) := by
  induction l with
  | nil => intro a; rfl
  | cons kw l ih =>
    intro a
    rw [List.foldl_cons]
    by_cases h : containsSub tl kw.1.data
    · rw [show stepMax tl a kw = max a kw.2 from if_pos h, ih]
      simp only [List.filter_cons]
      rw [if_pos h, List.map_cons]
      cases hm : (l.filter (fun kw => containsSub tl kw.1.data)).map
          (fun kw => kw.2) with
      | nil => simp
      | cons w ws =>
        show max (max a kw.2) (ws.foldl max w)
          = max a ((w :: ws).foldl max kw.2)
        rw [List.foldl_cons, foldl_max_shift, ← max_assoc]
    · rw [show stepMax tl a kw = a from if_neg h, ih]
      simp only [List.filter_cons]
      rw [if_neg h]

/-! ### Inversion of a fired detection -/

lemma detect_ok_some {ts : List InsiderTransaction} {thr : ℚ}
    {s : InsiderSignal}
    (h : detect_insider_selling_signal ts thr = Except.ok (some s)) :
    ts ≠ [] ∧ thr ≤ effectivePercentage ts ∧ thr ≠ 0 ∧
      s = buildSignal ts thr (min (rawConfidence ts thr) 0.99) := by
  unfold detect_insider_selling_signal at h
  by_cases he : ts.isEmpty = true
  · rw [if_pos he] at h
    exact absurd h (by simp)
  rw [if_neg he] at h
  have hne : ts ≠ [] := by
    intro hnil
    exact he (by rw [hnil]; rfl)
  by_cases hf : thr ≤ effectivePercentage ts
  · rw [if_pos hf] at h
    unfold calculateConfidence at h
    by_cases h0 : thr = 0
    · rw [if_pos h0] at h
      simp at h
    · rw [if_neg h0] at h
      simp only [Except.ok.injEq, Option.some.injEq] at h
      refine ⟨hne, hf, h0, ?_⟩
      unfold rawConfidence
      exact h.symm
  · rw [if_neg hf] at h
    simp at h

lemma confidenceOf_eq_some (r : Except String (Option InsiderSignal)) {c : ℚ}
    (h : confidenceOf r = some c) :
    ∃ s, r = Except.ok (some s) ∧ s.confidence = c := by
  rcases r with e | o
  · simp [confidenceOf] at h
  · rcases o with _ | s
    · simp [confidenceOf] at h
    · exact ⟨s, rfl, by simpa [confidenceOf] using h⟩

lemma thresholdValueOf_eq_some (r : Except String (Option InsiderSignal))
    {v : ℚ} (h : thresholdValueOf r = some v) :
    ∃ s, r = Except.ok (some s) ∧ s.threshold_value = v := by
  rcases r with e | o
  · simp [thresholdValueOf] at h
  · rcases o with _ | s
    · simp [thresholdValueOf] at h
    · exact ⟨s, rfl, by simpa [thresholdValueOf] using h⟩

lemma timeClusteredOf_eq_some (r : Except String (Option InsiderSignal))
    {d : Option Bool} (h : timeClusteredOf r = some d) :
    ∃ s, r = Except.ok (some s) ∧ s.details.time_clustered = d := by
  rcases r with e | o
  · simp [timeClusteredOf] at h
  · rcases o with _ | s
    · simp [timeClusteredOf] at h
    · exact ⟨s, rfl, by simpa [timeClusteredOf] using h⟩

/-! ### Bounds on the four confidence factors -/

lemma thresholdFactor_le_one (p t : ℚ) : thresholdFactor p t ≤ 1 :=
  min_le_right _ _

lemma thresholdFactor_ge (ts : List InsiderTransaction) (thr : ℚ)
    (hthr : 0 < thr) (hfire : thr ≤ effectivePercentage ts) :
    -(1/3) ≤ thresholdFactor (percentageSold ts) thr := by
  have hrm : roleMultiplier ts ≤ 1.5 := roleMultiplier_le ts
  have hp0 : 0 ≤ percentageSold ts := percentageSold_nonneg ts
  have h1 : thr ≤ percentageSold ts * 1.5 := by
    refine le_trans hfire ?_
    unfold effectivePercentage
    exact mul_le_mul_of_nonneg_left hrm hp0
  have h3 : (2/3 : ℚ) ≤ percentageSold ts / thr := by
    rw [le_div_iff hthr]
    linarith
  exact le_min (by linarith) (by norm_num)

lemma insiderFactor_nonneg (n : Nat) : 0 ≤ insiderFactor n :=
  le_min (div_nonneg (Nat.cast_nonneg n) (by norm_num)) (by norm_num)

lemma insiderFactor_le_one (n : Nat) : insiderFactor n ≤ 1 :=
  min_le_right _ _

lemma insiderFactor_ge (n : Nat) (h : 1 ≤ n) : 1/3 ≤ insiderFactor n := by
  have h1 : (1 : ℚ) ≤ (n : ℚ) := by exact_mod_cast h
  exact le_min (by linarith) (by norm_num)

lemma clusterFactor_ge (b : Bool) : 1/2 ≤ clusterFactor b := by
  cases b <;> norm_num [clusterFactor]

lemma clusterFactor_nonneg (b : Bool) : 0 ≤ clusterFactor b :=
  le_trans (by norm_num) (clusterFactor_ge b)

lemma clusterFactor_le_one (b : Bool) : clusterFactor b ≤ 1 := by
  cases b <;> norm_num [clusterFactor]

lemma roleFactor_le_one (rm : ℚ) : roleFactor rm ≤ 1 :=
  min_le_right _ _

lemma roleFactor_ge (rm : ℚ) (h : 1 ≤ rm) : 3/8 ≤ roleFactor rm := by
  refine le_min ?_ (by norm_num)
  rw [le_div_iff (by norm_num : (0:ℚ) < 0.8)]
  linarith

lemma roleFactor_nonneg (rm : ℚ) (h : 1 ≤ rm) : 0 ≤ roleFactor rm :=
  le_trans (by norm_num) (roleFactor_ge rm h)

lemma rawConfidence_pos (ts : List InsiderTransaction) (thr : ℚ)
    (hthr : 0 < thr) (hne : ts ≠ [])
    (hfire : thr ≤ effectivePercentage ts) : 0 < rawConfidence ts thr := by
  have h1 := thresholdFactor_ge ts thr hthr hfire
  have h2 := insiderFactor_ge (numUniqueInsiders ts) (numUniqueInsiders_pos ts hne)
  have h3 := clusterFactor_ge (isTimeClustered ts)
  have h4 := roleFactor_ge (roleMultiplier ts) (one_le_roleMultiplier ts)
  unfold rawConfidence
  nlinarith

/-! ### Concrete weight evaluations -/

lemma rw_CEO : roleWeightFor ("CEO") = 1.5 := by
  simp +decide [roleWeightFor, ROLE_WEIGHTS, stepMax] <;> norm_num

lemma rw_CFO : roleWeightFor ("CFO") = 1.4 := by
  simp +decide [roleWeightFor, ROLE_WEIGHTS, stepMax] <;> norm_num

lemma rw_Officer : roleWeightFor ("Officer") = 1 := by
  simp +decide [roleWeightFor, ROLE_WEIGHTS, stepMax] <;> norm_num

lemma rw_Director : roleWeightFor ("Director") = 1.2 := by
  simp +decide [roleWeightFor, ROLE_WEIGHTS, stepMax] <;> norm_num

lemma rw_Shareholder : roleWeightFor ("Shareholder") = 1 := by
  simp +decide [roleWeightFor, ROLE_WEIGHTS, stepMax] <;> norm_num

lemma rw_insider : roleWeightFor ("insider") = 1 := by
  simp +decide [roleWeightFor, ROLE_WEIGHTS, stepMax] <;> norm_num

lemma rw_owner10 : roleWeightFor ("10% owner") = 1 := by
  simp +decide [roleWeightFor, ROLE_WEIGHTS, stepMax] <;> norm_num

lemma claimed_insider : claimedRoleWeight ("insider") = 0.8 := by
  simp +decide [claimedRoleWeight, matchingWeights, ROLE_WEIGHTS] <;> norm_num

lemma claimed_owner10 : claimedRoleWeight ("10% owner") = 0.7 := by
  simp +decide [claimedRoleWeight, matchingWeights, ROLE_WEIGHTS] <;> norm_num

lemma rw_InsiderCap : roleWeightFor ("Insider") = 1 := by
  simp +decide [roleWeightFor, ROLE_WEIGHTS, stepMax] <;> norm_num

lemma claimed_InsiderCap : claimedRoleWeight ("Insider") = 0.8 := by
  simp +decide [claimedRoleWeight, matchingWeights, ROLE_WEIGHTS] <;> norm_num

lemma claimed_OfficerCap : claimedRoleWeight ("Officer") = 0.9 := by
  simp +decide [claimedRoleWeight, matchingWeights, ROLE_WEIGHTS] <;> norm_num

/-! ### Concrete transaction lists -/

/-- The CEO record of the spec scenario for claim C9 (and of the test
fixture): sells 150,000 shares, 200,000 owned afterwards. -/
def tCEO9 : InsiderTransaction :=
  { insider_name := "John Doe", title := "CEO", transaction_date := 15,
    shares_sold := 150000, shares_bought := 0, shares_owned_after := 200000,
    transaction_type := "Sale" }

/-- The CFO record of the spec scenario for claim C9: sells 50,000 shares,
100,000 owned afterwards, one day later. -/
def tCFO9 : InsiderTransaction :=
  { insider_name := "Jane Smith", title := "CFO", transaction_date := 16,
    shares_sold := 50000, shares_bought := 0, shares_owned_after := 100000,
    transaction_type := "Sale" }

def L9 : List InsiderTransaction := [tCEO9, tCFO9]

/-- Single CEO record: percentage_sold 40, effective 60. -/
def tA : InsiderTransaction :=
  { insider_name := "A", title := "CEO", transaction_date := 0,
    shares_sold := 100000, shares_bought := 0, shares_owned_after := 150000,
    transaction_type := "Sale" }

def LA : List InsiderTransaction := [tA]

/-- Single record whose title matches no weight key: percentage_sold 50. -/
def tB : InsiderTransaction :=
  { insider_name := "B", title := "Shareholder", transaction_date := 0,
    shares_sold := 100, shares_bought := 0, shares_owned_after := 100,
    transaction_type := "Sale" }

def LB : List InsiderTransaction := [tB]

/-- Single Director record selling well below threshold. -/
def tD : InsiderTransaction :=
  { insider_name := "D", title := "Director", transaction_date := 0,
    shares_sold := 10000, shares_bought := 0, shares_owned_after := 200000,
    transaction_type := "Sale" }

def LD : List InsiderTransaction := [tD]

/-- Two CEO records exactly 30 days apart, heavy selling. -/
def tE1 : InsiderTransaction :=
  { insider_name := "E1", title := "CEO", transaction_date := 0,
    shares_sold := 90000, shares_bought := 0, shares_owned_after := 10000,
    transaction_type := "Sale" }

def tE2 : InsiderTransaction :=
  { insider_name := "E2", title := "CEO", transaction_date := 30,
    shares_sold := 90000, shares_bought := 0, shares_owned_after := 10000,
    transaction_type := "Sale" }

def LEpair : List InsiderTransaction := [tE1, tE2]

/-- A base record used for the role-weight monotonicity witness. -/
def tX : InsiderTransaction :=
  { insider_name := "X", title := "X", transaction_date := 0,
    shares_sold := 100000, shares_bought := 0, shares_owned_after := 150000,
    transaction_type := "Sale" }

/-! ### Evaluation lemmas on the concrete lists -/

lemma eval9_pct : percentageSold L9 = 200/3 := by
  have h1 : recentOwnership L9 = 100000 := by decide
  have h2 : totalSold L9 = 200000 := by decide
  simp only [percentageSold, h1, h2]
  norm_num

lemma eval9_rm : roleMultiplier L9 = 1.5 := by
  simp only [roleMultiplier, L9, tCEO9, tCFO9, List.foldl_cons, List.foldl_nil,
    rw_CEO, rw_CFO]
  norm_num

lemma eval9_eff : effectivePercentage L9 = 100 := by
  unfold effectivePercentage
  rw [eval9_pct, eval9_rm]
  norm_num

lemma eval9_fire : detect_insider_selling_signal L9 40
    = Except.ok (some (buildSignal L9 40 (min (rawConfidence L9 40) 0.99))) := by
  unfold detect_insider_selling_signal
  rw [if_neg (show ¬ (L9.isEmpty = true) by decide),
    if_pos (show (40:ℚ) ≤ effectivePercentage L9 by rw [eval9_eff]; norm_num)]
  unfold calculateConfidence
  rw [if_neg (show ¬ ((40:ℚ) = 0) by norm_num)]
  unfold rawConfidence
  rfl

lemma eval9_raw : rawConfidence L9 40 = 23/30 := by
  unfold rawConfidence
  rw [eval9_pct, eval9_rm, (show numUniqueInsiders L9 = 2 by decide),
    (show isTimeClustered L9 = true by decide)]
  unfold thresholdFactor insiderFactor clusterFactor roleFactor
  norm_num

lemma eval9_conf : confidenceOf (detect_insider_selling_signal L9 40)
    = some (23/30) := by
  rw [eval9_fire]
  simp only [confidenceOf, buildSignal]
  rw [eval9_raw]
  norm_num

lemma eval9_tv : thresholdValueOf (detect_insider_selling_signal L9 40)
    = some (200/3) := by
  rw [eval9_fire]
  simp only [thresholdValueOf, buildSignal]
  rw [eval9_pct]

lemma evalA_pct : percentageSold LA = 40 := by
  have h1 : recentOwnership LA = 150000 := by decide
  have h2 : totalSold LA = 100000 := by decide
  simp only [percentageSold, h1, h2]
  norm_num

lemma evalA_rm : roleMultiplier LA = 1.5 := by
  simp only [roleMultiplier, LA, tA, List.foldl_cons, List.foldl_nil, rw_CEO]
  norm_num

lemma evalA_eff : effectivePercentage LA = 60 := by
  unfold effectivePercentage
  rw [evalA_pct, evalA_rm]
  norm_num

lemma evalA50_fire : detect_insider_selling_signal LA 50
    = Except.ok (some (buildSignal LA 50 (min (rawConfidence LA 50) 0.99))) := by
  unfold detect_insider_selling_signal
  rw [if_neg (show ¬ (LA.isEmpty = true) by decide),
    if_pos (show (50:ℚ) ≤ effectivePercentage LA by rw [evalA_eff]; norm_num)]
  unfold calculateConfidence
  rw [if_neg (show ¬ ((50:ℚ) = 0) by norm_num)]
  unfold rawConfidence
  rfl

lemma evalA50_raw : rawConfidence LA 50 = 49/200 := by
  unfold rawConfidence
  rw [evalA_pct, evalA_rm, (show numUniqueInsiders LA = 1 by decide),
    (show isTimeClustered LA = false by decide)]
  unfold thresholdFactor insiderFactor clusterFactor roleFactor
  norm_num

lemma evalA50_conf : confidenceOf (detect_insider_selling_signal LA 50)
    = some (49/200) := by
  rw [evalA50_fire]
  simp only [confidenceOf, buildSignal]
  rw [evalA50_raw]
  norm_num

lemma evalA50_tv : thresholdValueOf (detect_insider_selling_signal LA 50)
    = some 40 := by
  rw [evalA50_fire]
  simp only [thresholdValueOf, buildSignal]
  rw [evalA_pct]

lemma evalA40_fire : detect_insider_selling_signal LA 40
    = Except.ok (some (buildSignal LA 40 (min (rawConfidence LA 40) 0.99))) := by
  unfold detect_insider_selling_signal
  rw [if_neg (show ¬ (LA.isEmpty = true) by decide),
    if_pos (show (40:ℚ) ≤ effectivePercentage LA by rw [evalA_eff]; norm_num)]
  unfold calculateConfidence
  rw [if_neg (show ¬ ((40:ℚ) = 0) by norm_num)]
  unfold rawConfidence
  rfl

lemma evalA40_raw : rawConfidence LA 40 = 13/40 := by
  unfold rawConfidence
  rw [evalA_pct, evalA_rm, (show numUniqueInsiders LA = 1 by decide),
    (show isTimeClustered LA = false by decide)]
  unfold thresholdFactor insiderFactor clusterFactor roleFactor
  norm_num

lemma evalA40_conf : confidenceOf (detect_insider_selling_signal LA 40)
    = some (13/40) := by
  rw [evalA40_fire]
  simp only [confidenceOf, buildSignal]
  rw [evalA40_raw]
  norm_num

lemma evalB_pct : percentageSold LB = 50 := by
  have h1 : recentOwnership LB = 100 := by decide
  have h2 : totalSold LB = 100 := by decide
  simp only [percentageSold, h1, h2]
  norm_num

lemma evalB_rm : roleMultiplier LB = 1 := by
  simp only [roleMultiplier, LB, tB, List.foldl_cons, List.foldl_nil,
    rw_Shareholder]
  norm_num

lemma evalB_eff : effectivePercentage LB = 50 := by
  unfold effectivePercentage
  rw [evalB_pct, evalB_rm]
  norm_num

lemma evalB_fire : detect_insider_selling_signal LB (-10)
    = Except.ok (some (buildSignal LB (-10)
        (min (rawConfidence LB (-10)) 0.99))) := by
  unfold detect_insider_selling_signal
  rw [if_neg (show ¬ (LB.isEmpty = true) by decide),
    if_pos (show (-10:ℚ) ≤ effectivePercentage LB by rw [evalB_eff]; norm_num)]
  unfold calculateConfidence
  rw [if_neg (show ¬ ((-10:ℚ) = 0) by norm_num)]
  unfold rawConfidence
  rfl

lemma evalB_raw : rawConfidence LB (-10) = -(347/160) := by
  unfold rawConfidence
  rw [evalB_pct, evalB_rm, (show numUniqueInsiders LB = 1 by decide),
    (show isTimeClustered LB = false by decide)]
  unfold thresholdFactor insiderFactor clusterFactor roleFactor
  norm_num

lemma evalB_conf : confidenceOf (detect_insider_selling_signal LB (-10))
    = some (-(347/160)) := by
  rw [evalB_fire]
  simp only [confidenceOf, buildSignal]
  rw [evalB_raw]
  norm_num

lemma evalD_pct : percentageSold LD = 100/21 := by
  have h1 : recentOwnership LD = 200000 := by decide
  have h2 : totalSold LD = 10000 := by decide
  simp only [percentageSold, h1, h2]
  norm_num

lemma evalD_rm : roleMultiplier LD = 1.2 := by
  simp only [roleMultiplier, LD, tD, List.foldl_cons, List.foldl_nil,
    rw_Director]
  norm_num

lemma evalD_eff : effectivePercentage LD = 40/7 := by
  unfold effectivePercentage
  rw [evalD_pct, evalD_rm]
  norm_num

lemma evalE_pct : percentageSold LEpair = 1800/19 := by
  have h1 : recentOwnership LEpair = 10000 := by decide
  have h2 : totalSold LEpair = 180000 := by decide
  simp only [percentageSold, h1, h2]
  norm_num

lemma evalE_rm : roleMultiplier LEpair = 1.5 := by
  simp only [roleMultiplier, LEpair, tE1, tE2, List.foldl_cons,
    List.foldl_nil, rw_CEO]
  norm_num

lemma evalE_eff : effectivePercentage LEpair = 2700/19 := by
  unfold effectivePercentage
  rw [evalE_pct, evalE_rm]
  norm_num

lemma evalE_fire : detect_insider_selling_signal LEpair 40
    = Except.ok (some (buildSignal LEpair 40
        (min (rawConfidence LEpair 40) 0.99))) := by
  unfold detect_insider_selling_signal
  rw [if_neg (show ¬ (LEpair.isEmpty = true) by decide),
    if_pos (show (40:ℚ) ≤ effectivePercentage LEpair by
      rw [evalE_eff]; norm_num)]
  unfold calculateConfidence
  rw [if_neg (show ¬ ((40:ℚ) = 0) by norm_num)]
  unfold rawConfidence
  rfl

lemma evalE_tc : timeClusteredOf (detect_insider_selling_signal LEpair 40)
    = some (some true) := by
  rw [evalE_fire]
  simp only [timeClusteredOf, buildSignal]
  decide

lemma evalX_pct : percentageSold [{ tX with title := "CEO" }] = 40 := by
  have h1 : recentOwnership [{ tX with title := "CEO" }] = 150000 := by decide
  have h2 : totalSold [{ tX with title := "CEO" }] = 100000 := by decide
  simp only [percentageSold, h1, h2]
  norm_num

/-! ### Claim theorems -/

/-- Claim C1, counterexample: the claim says a title whose only matching key
is `insider` resolves to weight 0.8 and one whose only matching key is
`10% owner` resolves to 0.7 (the maximum matching table weight).  In the
code the accumulator starts at 1.0, so both resolve to 1.0, refuting the
claimed equation at these titles. -/
theorem C1_counterexample :
    roleWeightFor ("insider") = 1 ∧ claimedRoleWeight ("insider") = 0.8 ∧
    roleWeightFor ("insider") ≠ claimedRoleWeight ("insider") ∧
    roleWeightFor ("10% owner") = 1 ∧ claimedRoleWeight ("10% owner") = 0.7 ∧
    roleWeightFor ("10% owner") ≠ claimedRoleWeight ("10% owner") := by
  refine ⟨rw_insider, claimed_insider, ?_, rw_owner10, claimed_owner10, ?_⟩
  · rw [rw_insider, claimed_insider]; norm_num
  · rw [rw_owner10, claimed_owner10]; norm_num

/-- Claim C1 (amended): for every role title, the resolved weight equals the
maximum of 1.0 and the maximum table weight over all case-insensitively
matching substring keys (with the same default 1.0 when no key matches);
in particular the sub-1.0 table entries can never be returned. -/
theorem C1_amended (title : String) :
    roleWeightFor title = max 1 (claimedRoleWeight title) := by
  unfold roleWeightFor claimedRoleWeight matchingWeights
  rw [foldl_stepMax_eq]
  cases hm : (ROLE_WEIGHTS.filter
      (fun kw => containsSub (lowerStr title) kw.1.data)).map
      (fun kw => kw.2) with
  | nil => simp
  | cons w ws => rfl

/-- Claim C2: evaluation of the code at the failing input.  On a firing
two-record input with threshold 0, `_calculate_confidence` divides
`percentage_sold` by the zero threshold and the detection call raises
`ZeroDivisionError` instead of clamping the factor. -/
theorem C2_zero_threshold_raises :
    detect_insider_selling_signal L9 0
      = Except.error ("ZeroDivisionError") := by
  unfold detect_insider_selling_signal
  rw [if_neg (show ¬ (L9.isEmpty = true) by decide),
    if_pos (show (0:ℚ) ≤ effectivePercentage L9 by rw [eval9_eff]; norm_num)]
  unfold calculateConfidence
  rw [if_pos rfl]

/-- Claim C3, counterexample: with a negative threshold the detector fires
(every effective percentage exceeds a negative threshold) yet the returned
confidence is negative, refuting `0 < confidence` as stated. -/
theorem C3_counterexample :
    confidenceOf (detect_insider_selling_signal LB (-10))
      = some (-(347/160)) ∧
    ¬ (0 < (-(347/160) : ℚ)) :=
  ⟨evalB_conf, by norm_num⟩

/-- Claim C3 (amended): for every firing input with strictly positive
threshold, the returned confidence is strictly greater than 0.0 and at
most 0.99. -/
theorem C3_amended (ts : List InsiderTransaction) (thr c : ℚ) (hthr : 0 < thr)
    (h : confidenceOf (detect_insider_selling_signal ts thr) = some c) :
    0 < c ∧ c ≤ 0.99 := by
  obtain ⟨s, hd, hc⟩ := confidenceOf_eq_some _ h
  obtain ⟨hne, hfire, -, rfl⟩ := detect_ok_some hd
  have hraw : (buildSignal ts thr (min (rawConfidence ts thr) 0.99)).confidence
      = min (rawConfidence ts thr) 0.99 := rfl
  rw [hraw] at hc
  subst hc
  constructor
  · exact lt_min (rawConfidence_pos ts thr hthr hne hfire) (by norm_num)
  · exact min_le_right _ _

/-- Claim C3, witness: the two-record scenario at threshold 40 fires with
confidence 23/30, which the amended theorem bounds. -/
theorem C3_witness : (0:ℚ) < 23/30 ∧ (23/30:ℚ) ≤ 0.99 :=
  C3_amended L9 40 (23/30) (by norm_num) eval9_conf

/-- Claim C4, counterexample: at threshold 0 on a firing single-record
input, the firing condition holds yet the call returns neither a record
nor `None`: it raises `ZeroDivisionError`, refuting the stated iff. -/
theorem C4_counterexample :
    (0:ℚ) ≤ effectivePercentage LA ∧
    detect_insider_selling_signal LA 0
      = Except.error ("ZeroDivisionError") := by
  constructor
  · rw [evalA_eff]; norm_num
  · unfold detect_insider_selling_signal
    rw [if_neg (show ¬ (LA.isEmpty = true) by decide),
      if_pos (show (0:ℚ) ≤ effectivePercentage LA by rw [evalA_eff]; norm_num)]
    unfold calculateConfidence
    rw [if_pos rfl]

/-- Claim C4 (amended): empty input returns `None` for every threshold;
for non-empty input and every nonzero threshold, the detector returns a
record iff `effective_percentage >= threshold` and returns `None`
otherwise, without raising.  (At threshold exactly 0 a firing input raises
instead of returning a record, per the counterexample.) -/
theorem C4_amended (ts : List InsiderTransaction) (thr : ℚ) :
    (ts = [] → detect_insider_selling_signal ts thr = Except.ok none) ∧
    (ts ≠ [] → thr ≠ 0 →
      (((∃ s, detect_insider_selling_signal ts thr = Except.ok (some s)) ↔
          thr ≤ effectivePercentage ts) ∧
        (effectivePercentage ts < thr →
          detect_insider_selling_signal ts thr = Except.ok none))) := by
  constructor
  · rintro rfl
    rfl
  · intro hne h0
    have hE : ¬ (ts.isEmpty = true) := by
      simp [List.isEmpty_iff, hne]
    constructor
    · constructor
      · rintro ⟨s, hs⟩
        exact (detect_ok_some hs).2.1
      · intro hfire
        refine ⟨buildSignal ts thr (min (rawConfidence ts thr) 0.99), ?_⟩
        unfold detect_insider_selling_signal
        rw [if_neg hE, if_pos hfire]
        unfold calculateConfidence
        rw [if_neg h0]
        unfold rawConfidence
        rfl
    · intro hlt
      unfold detect_insider_selling_signal
      rw [if_neg hE, if_neg (not_le.mpr hlt)]

/-- Claim C4, witness: a below-threshold single Director record at
threshold 40 yields `None`. -/
theorem C4_witness : detect_insider_selling_signal LD 40 = Except.ok none :=
  ((C4_amended LD 40).2 (by decide) (by norm_num)).2
    (by rw [evalD_eff]; norm_num)

/-- Claim C5: whenever the detector fires, the returned `threshold_value`
equals the unweighted percentage sold, i.e. `total_sold /
(last record ownership + total_sold) * 100`, or 0 when that ownership is 0
-- not the role-weighted effective percentage used for the firing test. -/
theorem C5_threshold_value_unweighted (ts : List InsiderTransaction)
    (thr v : ℚ)
    (h : thresholdValueOf (detect_insider_selling_signal ts thr) = some v) :
    v = if 0 < recentOwnership ts then
        (totalSold ts : ℚ) / ((recentOwnership ts : ℚ) + (totalSold ts : ℚ))
          * 100
      else 0 := by
  obtain ⟨s, hd, hv⟩ := thresholdValueOf_eq_some _ h
  obtain ⟨-, -, -, rfl⟩ := detect_ok_some hd
  rw [← hv]
  rfl

/-- Claim C5, witness: the single-CEO record fires at threshold 50 only by
role weighting, and the reported value 40 is the unweighted formula. -/
theorem C5_witness :
    (40:ℚ) = if 0 < recentOwnership LA then
        (totalSold LA : ℚ) / ((recentOwnership LA : ℚ) + (totalSold LA : ℚ))
          * 100
      else 0 :=
  C5_threshold_value_unweighted LA 50 40 evalA50_tv

/-- Claim C6, counterexample: a firing input with positive threshold 50
whose unweighted percentage (40) is below the threshold.  The code factor
`min(pct/threshold - 1, 1)` is -1/5: negative, and not the claimed
`clamp(pct/threshold - 1, 0, 1)`. -/
theorem C6_counterexample :
    confidenceOf (detect_insider_selling_signal LA 50) = some (49/200) ∧
    thresholdFactor (percentageSold LA) 50 < 0 ∧
    thresholdFactor (percentageSold LA) 50
      ≠ max 0 (min (percentageSold LA / 50 - 1) 1) := by
  refine ⟨evalA50_conf, ?_, ?_⟩
  · unfold thresholdFactor
    rw [evalA_pct]
    norm_num
  · rw [evalA_pct]
    unfold thresholdFactor
    norm_num

/-- Claim C6 (amended): for every firing input with strictly positive
threshold, the threshold-distance factor equals
`min(pct/threshold - 1, 1)`: clamped above at 1 but not below at 0, so it
equals the claimed clamp exactly when `pct >= threshold`; it is bounded
below by -1/3 on such inputs, and the other three factors lie in [0, 1]. -/
theorem C6_amended (ts : List InsiderTransaction) (thr c : ℚ) (hthr : 0 < thr)
    (h : confidenceOf (detect_insider_selling_signal ts thr) = some c) :
    thresholdFactor (percentageSold ts) thr
        = min (percentageSold ts / thr - 1) 1 ∧
    (thr ≤ percentageSold ts →
      thresholdFactor (percentageSold ts) thr
        = max 0 (min (percentageSold ts / thr - 1) 1)) ∧
    -(1/3) ≤ thresholdFactor (percentageSold ts) thr ∧
    thresholdFactor (percentageSold ts) thr ≤ 1 ∧
    0 ≤ insiderFactor (numUniqueInsiders ts) ∧
    insiderFactor (numUniqueInsiders ts) ≤ 1 ∧
    0 ≤ clusterFactor (isTimeClustered ts) ∧
    clusterFactor (isTimeClustered ts) ≤ 1 ∧
    0 ≤ roleFactor (roleMultiplier ts) ∧
    roleFactor (roleMultiplier ts) ≤ 1 := by
  obtain ⟨s, hd, -⟩ := confidenceOf_eq_some _ h
  obtain ⟨hne, hfire, -, -⟩ := detect_ok_some hd
  refine ⟨rfl, ?_, thresholdFactor_ge ts thr hthr hfire,
    thresholdFactor_le_one _ _, insiderFactor_nonneg _,
    insiderFactor_le_one _, clusterFactor_nonneg _, clusterFactor_le_one _,
    roleFactor_nonneg _ (one_le_roleMultiplier ts), roleFactor_le_one _⟩
  intro hp
  have h1 : (1:ℚ) ≤ percentageSold ts / thr := by
    rw [le_div_iff hthr]
    linarith
  have h2 : 0 ≤ min (percentageSold ts / thr - 1) 1 :=
    le_min (by linarith) (by norm_num)
  rw [max_eq_right h2]
  rfl

/-- Claim C6, witness: the single-CEO record at threshold 40 fires with
percentage exactly at the threshold, instantiating the amended bounds. -/
theorem C6_witness :
    thresholdFactor (percentageSold LA) 40
        = min (percentageSold LA / 40 - 1) 1 ∧
    (40 ≤ percentageSold LA →
      thresholdFactor (percentageSold LA) 40
        = max 0 (min (percentageSold LA / 40 - 1) 1)) ∧
    -(1/3) ≤ thresholdFactor (percentageSold LA) 40 ∧
    thresholdFactor (percentageSold LA) 40 ≤ 1 ∧
    0 ≤ insiderFactor (numUniqueInsiders LA) ∧
    insiderFactor (numUniqueInsiders LA) ≤ 1 ∧
    0 ≤ clusterFactor (isTimeClustered LA) ∧
    clusterFactor (isTimeClustered LA) ≤ 1 ∧
    0 ≤ roleFactor (roleMultiplier LA) ∧
    roleFactor (roleMultiplier LA) ≤ 1 :=
  C6_amended LA 40 (13/40) (by norm_num) evalA40_conf

/-- Claim C7, counterexample: the claim orders inputs by the table weight
of the matching key.  The titles Officer (table weight 0.9) and Insider
(table weight 0.8) carry strictly ordered table weights, both records sell
a positive percentage, yet the code resolves both titles to weight 1.0 and
the two effective percentages are equal, not strictly ordered. -/
theorem C7_counterexample :
    claimedRoleWeight ("Insider") < claimedRoleWeight ("Officer") ∧
    0 < percentageSold [{ tX with title := "Officer" }] ∧
    effectivePercentage [{ tX with title := "Officer" }]
      = effectivePercentage [{ tX with title := "Insider" }] ∧
    ¬ (effectivePercentage [{ tX with title := "Insider" }]
        < effectivePercentage [{ tX with title := "Officer" }]) := by
  have m1 : roleMultiplier [{ tX with title := "Officer" }] = 1 := by
    show max 1 (roleWeightFor ("Officer")) = 1
    rw [rw_Officer]
    norm_num
  have m2 : roleMultiplier [{ tX with title := "Insider" }] = 1 := by
    show max 1 (roleWeightFor ("Insider")) = 1
    rw [rw_InsiderCap]
    norm_num
  have heq : effectivePercentage [{ tX with title := "Officer" }]
      = effectivePercentage [{ tX with title := "Insider" }] := by
    unfold effectivePercentage
    rw [m1, m2]
    rfl
  refine ⟨?_, ?_, heq, ?_⟩
  · rw [claimed_InsiderCap, claimed_OfficerCap]
    norm_num
  · rw [show percentageSold [{ tX with title := "Officer" }] = 40
        from evalX_pct]
    norm_num
  · rw [heq]
    exact lt_irrefl _

/-- Claim C7 (amended): for two single-record inputs identical except for
the role title, both with positive percentage sold, the strictly higher
*resolved* role weight (the maximum of 1.0 and the matching table weights)
yields a strictly greater effective percentage; titles whose matching
table weights are all at most 1.0 resolve equally and give equal effective
percentages. -/
theorem C7_role_weight_monotonicity (r : InsiderTransaction) (t1 t2 : String)
    (hw : roleWeightFor t2 < roleWeightFor t1)
    (hp : 0 < percentageSold [{ r with title := t1 }]) :
    effectivePercentage [{ r with title := t2 }]
      < effectivePercentage [{ r with title := t1 }] := by
  have m1 : roleMultiplier [{ r with title := t1 }] = roleWeightFor t1 := by
    show max 1 (roleWeightFor t1) = roleWeightFor t1
    exact max_eq_right (one_le_roleWeightFor t1)
  have m2 : roleMultiplier [{ r with title := t2 }] = roleWeightFor t2 := by
    show max 1 (roleWeightFor t2) = roleWeightFor t2
    exact max_eq_right (one_le_roleWeightFor t2)
  have e1 : percentageSold [{ r with title := t2 }]
      = percentageSold [{ r with title := t1 }] := rfl
  unfold effectivePercentage
  rw [m1, m2, e1]
  exact mul_lt_mul_of_pos_left hw hp

/-- Claim C7, witness: a CEO title (weight 1.5) against an Officer title
(resolved weight 1.0) on the same base record with 40 percent sold. -/
theorem C7_witness :
    effectivePercentage [{ tX with title := "Officer" }]
      < effectivePercentage [{ tX with title := "CEO" }] := by
  refine C7_role_weight_monotonicity tX ("CEO") ("Officer") ?_ ?_
  · rw [rw_Officer, rw_CEO]
    norm_num
  · rw [evalX_pct]
    norm_num

/-- Claim C8: on every firing input with at least two records, the
clustering flag reported in the details is true iff the span between the
maximum and minimum transaction dates is at most 30 days; on a
single-record firing input the clustering metric is false (and the details
entry carries no value). -/
theorem C8_time_clustering (ts : List InsiderTransaction) (thr : ℚ)
    (d : Option Bool)
    (h : timeClusteredOf (detect_insider_selling_signal ts thr) = some d) :
    (1 < ts.length → (d = some true ↔ dateSpanDays ts ≤ 30)) ∧
    (ts.length = 1 → isTimeClustered ts = false ∧ d = none) := by
  obtain ⟨s, hd, hv⟩ := timeClusteredOf_eq_some _ h
  obtain ⟨-, -, -, rfl⟩ := detect_ok_some hd
  have htc : (buildSignal ts thr
        (min (rawConfidence ts thr) 0.99)).details.time_clustered
      = if 1 < ts.length then some (isTimeClustered ts) else none := rfl
  rw [htc] at hv
  constructor
  · intro hlen
    rw [if_pos hlen] at hv
    subst hv
    unfold isTimeClustered
    rw [if_pos hlen]
    simp
  · intro hlen
    have hnl : ¬ 1 < ts.length := by omega
    rw [if_neg hnl] at hv
    subst hv
    refine ⟨?_, rfl⟩
    unfold isTimeClustered
    rw [if_neg hnl]

/-- Claim C8, witness: two heavy-selling CEO records exactly 30 days apart
fire at threshold 40 and are reported as time-clustered. -/
theorem C8_witness :
    ((some true : Option Bool) = some true ↔ dateSpanDays LEpair ≤ 30) ∧
    dateSpanDays LEpair ≤ 30 := by
  have h := (C8_time_clustering LEpair 40 (some true) evalE_tc).1 (by decide)
  exact ⟨h, h.mp rfl⟩

/-- Claim C9, counterexample: on the CEO-then-CFO scenario at threshold 40
the detector fires but reports `threshold_value = 200/3` (about 66.67, the
last record owning 100,000 shares), not approximately 48.98 as claimed. -/
theorem C9_counterexample :
    thresholdValueOf (detect_insider_selling_signal L9 40) = some (200/3) ∧
    (200:ℚ)/3 ≠ 48.98 ∧ (48.98:ℚ) + 17 < 200/3 :=
  ⟨eval9_tv, by norm_num, by norm_num⟩

/-- Claim C9 (amended): on the CEO-then-CFO scenario at threshold 40 the
detector fires, `threshold_value = 200/3` (about 66.67), and the
confidence 23/30 is strictly between 0 and 0.99. -/
theorem C9_amended :
    thresholdValueOf (detect_insider_selling_signal L9 40) = some (200/3) ∧
    confidenceOf (detect_insider_selling_signal L9 40) = some (23/30) ∧
    (0:ℚ) < 23/30 ∧ (23/30:ℚ) < 0.99 :=
  ⟨eval9_tv, eval9_conf, by norm_num, by norm_num⟩

/-- Claim C10: every resolved per-record role weight and every aggregate
role multiplier is at least 1.0 (the sub-1.0 table entries can never lower
them below the initial accumulator), hence the effective percentage is
always at least the unweighted percentage sold. -/
theorem C10_weights_floor :
    (∀ title : String, 1 ≤ roleWeightFor title) ∧
    (∀ ts : List InsiderTransaction, 1 ≤ roleMultiplier ts) ∧
    (∀ ts : List InsiderTransaction,
      percentageSold ts ≤ effectivePercentage ts) := by
  refine ⟨one_le_roleWeightFor, one_le_roleMultiplier, fun ts => ?_⟩
  unfold effectivePercentage
  exact le_mul_of_one_le_right (percentageSold_nonneg ts)
    (one_le_roleMultiplier ts)
